import Mathlib

/-!
Verification of the dual-backend financial-data adapter
(`src/tools/finance/api.ts`, function `callApi`).

The adapter is embedded shallowly: the JavaScript runtime effects are made
explicit.  An `Env` packages the two credential environment variables, the
cache collaborator (`readCache`), the HTTP transport (`fetch`) and the clock
(`Date.now()`).  Running `callApi` yields an `Except`-result (a thrown
`Error`'s message on the left) together with a trace of the observable
effects: cache reads, cache writes and network calls, in program order.
-/

set_option maxHeartbeats 1600000

namespace Dexter

/-- JSON-like runtime values.  `undefined` stands for JavaScript's `undefined`,
which can arise from indexing an empty array (`arr[0]`) or from a missing
property access. -/
inductive Json where
  | null
  | undefined
  | bool (b : Bool)
  | num (n : Int)
  | str (s : String)
  | arr (elems : List Json)
  | obj (fields : List (String × Json))
  deriving Repr

/-- Values admissible in `params`: `string | number | string[]`
(an absent key is `Option.none` at the `Params` level). -/
inductive ParamValue where
  | s (v : String)
  | n (v : Int)
  | arr (vs : List String)
  deriving Repr, DecidableEq

/-- The `params` record: an ordered key/value map (objects preserve
insertion order); a `none` value is JavaScript `undefined`. -/
abbrev Params := List (String × Option ParamValue)

/-- Property read `params.k`: a missing key and an `undefined` value both
read as `undefined`. -/
def getParam (params : Params) (k : String) : Option ParamValue :=
  match params.lookup k with
  | some v => v
  | none => none

/-- JavaScript truthiness of a parameter value. -/
def truthyV : ParamValue → Bool
  | .s v => v != ""
  | .n v => v != 0
  | .arr _ => true

/-- JavaScript truthiness, with `undefined` falsy. -/
def truthy : Option ParamValue → Bool
  | none => false
  | some v => truthyV v

/-- JavaScript `String(v)` on a parameter value. -/
def jsString : ParamValue → String
  | .s v => v
  | .n v => toString v
  | .arr vs => String.intercalate "," vs

/-- JavaScript `String(v)` where `v` may be `undefined`. -/
def jsStringO : Option ParamValue → String
  | none => "undefined"
  | some v => jsString v

/-- A request URL, kept structured: base host, path, and the ordered list of
query entries produced by `searchParams.append`. -/
structure Url where
  base : String
  path : String
  query : List (String × String)
  deriving Repr, DecidableEq

/-- `url.toString()`: serialize the URL (query percent-encoding is not
modelled; no claim depends on it). -/
def Url.render (u : Url) : String :=
  u.base ++ u.path ++
    match u.query with
    | [] => ""
    | q => "?" ++ String.intercalate "&" (q.map (fun p => p.1 ++ "=" ++ p.2))

/-- Outcome of one `fetch`: a transport failure, or a response with `ok`,
`status`, `statusText` and a body (`none` when `res.json()` rejects). -/
inductive FetchOutcome where
  | netError (msg : String)
  | response (ok : Bool) (status : Nat) (statusText : String) (body : Option Json)

/-- Does this outcome make the surrounding request fail (transport error,
non-ok status, or unparseable body)? -/
def outcomeFails : FetchOutcome → Bool
  | .netError _ => true
  | .response ok _ _ body => !ok || body.isNone

/-- The `ApiResponse` interface: `{ data, url }`. -/
structure ApiResponse where
  data : Json
  url : String
  deriving Repr

/-- Observable effects of one `callApi` call, in program order. -/
inductive Event where
  | cacheRead (endpoint : String) (params : Params)
  | netCall (url : Url)
  | cacheWrite (endpoint : String) (params : Params) (data : Json) (url : String)

/-- The network calls appearing in a trace, in order. -/
def netCalls (tr : List Event) : List Url :=
  tr.filterMap fun e =>
    match e with
    | .netCall u => some u
    | _ => none

def isCacheRead : Event → Bool
  | .cacheRead _ _ => true
  | _ => false

def isCacheWrite : Event → Bool
  | .cacheWrite _ _ _ _ => true
  | _ => false

/-- Number of cache reads in a trace. -/
def cacheReads (tr : List Event) : Nat := tr.countP isCacheRead

/-- Number of cache writes in a trace. -/
def cacheWrites (tr : List Event) : Nat := tr.countP isCacheWrite

/-- The call-time environment: the two credential variables, the cache
collaborator's read view, the HTTP transport, and `Date.now()` in
milliseconds. -/
structure Env where
  fdKey : Option String
  fmpKey : Option String
  cache : String → Params → Option ApiResponse
  fetch : Url → FetchOutcome
  now : Int

/-- Truthiness of `process.env.X`: set and non-empty. -/
def keyPresent : Option String → Bool
  | none => false
  | some s => s != ""

/-- Gregorian civil date from a day count relative to 1970-01-01
(the computation `toISOString` performs on the UTC timeline). -/
def civilFromDays (z0 : Int) : Int × Int × Int :=
  let z := z0 + 719468
  let era := Int.fdiv z 146097
  let doe := z - era * 146097
  let yoe := Int.fdiv (doe - Int.fdiv doe 1460 + Int.fdiv doe 36524 - Int.fdiv doe 146096) 365
  let y := yoe + era * 400
  let doy := doe - (365 * yoe + Int.fdiv yoe 4 - Int.fdiv yoe 100)
  let mp := Int.fdiv (5 * doy + 2) 153
  let d := doy - Int.fdiv (153 * mp + 2) 5 + 1
  let m := mp + (if mp < 10 then 3 else -9)
  (y + (if m ≤ 2 then 1 else 0), m, d)

/-- Zero-pad to two digits. -/
def pad2 (n : Int) : String :=
  if n < 10 then "0" ++ toString n else toString n

/-- Zero-pad to four digits. -/
def pad4 (n : Int) : String :=
  if n < 10 then "000" ++ toString n
  else if n < 100 then "00" ++ toString n
  else if n < 1000 then "0" ++ toString n
  else toString n

/-- `new Date(ms).toISOString().slice(0, 10)`: the UTC calendar date. -/
def isoDate (ms : Int) : String :=
  let c := civilFromDays (Int.fdiv ms 86400000)
  pad4 c.1 ++ "-" ++ pad2 c.2.1 ++ "-" ++ pad2 c.2.2

/-- Does the character list start with the given pattern? -/
def charsStartWith : List Char → List Char → Bool
  | _, [] => true
  | [], _ :: _ => false
  | a :: as, b :: bs => a == b && charsStartWith as bs

/-- Does the character list contain the pattern as a contiguous run? -/
def charsContain : List Char → List Char → Bool
  | [], sub => sub.isEmpty
  | a :: t, sub => charsStartWith (a :: t) sub || charsContain t sub

/-- JavaScript `s.includes(sub)`. -/
def jsIncludes (s sub : String) : Bool :=
  charsContain s.toList sub.toList

/-- Modelled from the spec: `describeRequest` lives in the external cache
collaborator (`utils/cache.js`, spec §6 `describeKey`), a pure deterministic
diagnostic label for (endpoint, parameters); only error-message text depends
on it, and no claim inspects that text. -/
def describeRequest (endpoint : String) (params : Params) : String :=
  endpoint ++ " [" ++ String.intercalate ", " (params.map Prod.fst) ++ "]"

def BASE_URL : String := "https://api.financialdatasets.ai"

def FMP_BASE_URL : String := "https://financialmodelingprep.com/stable"

/-- The `limit` entry of an FMP sub-request query:
`if (params.limit) url.searchParams.append('limit', String(params.limit))`. -/
def limitQuery (params : Params) : List (String × String) :=
  if truthy (getParam params "limit") then
    [("limit", jsStringO (getParam params "limit"))]
  else []

/-- The `period` entry of an FMP sub-request query:
`if (params.period === 'quarterly') url.searchParams.append('period', 'quarter')`. -/
def periodQuery (params : Params) : List (String × String) :=
  if getParam params "period" = some (ParamValue.s "quarterly") then
    [("period", "quarter")]
  else []

/-- The full query of an FMP sub-request, in `searchParams.append` order:
symbol (unless skipped), apikey, limit, period, then the rule's extras. -/
def fmpQuery (ticker fmpKey : String) (params : Params)
    (extra : List (String × String)) (skipSymbol : Bool) : List (String × String) :=
  (if skipSymbol then [] else [("symbol", ticker)]) ++ [("apikey", fmpKey)] ++
    limitQuery params ++ periodQuery params ++ extra

/-- The URL of an FMP sub-request. -/
def fmpUrl (ticker fmpKey : String) (params : Params) (subEndpoint : String)
    (extra : List (String × String)) (skipSymbol : Bool) : Url :=
  ⟨FMP_BASE_URL, subEndpoint, fmpQuery ticker fmpKey params extra skipSymbol⟩

/-- The `fetchFMP` helper: build the sub-request URL, fetch it, and wrap a
parsed body as `{ data: { [subKey]: data }, url }`. -/
def fetchFMP (env : Env) (label ticker fmpKey : String) (params : Params)
    (subEndpoint subKey : String) (extra : List (String × String)) (skipSymbol : Bool) :
    Except String ApiResponse × List Event :=
  let url := fmpUrl ticker fmpKey params subEndpoint extra skipSymbol
  match env.fetch url with
  | .netError msg =>
      (.error ("FMP API request failed for " ++ label ++ ": " ++ msg), [.netCall url])
  | .response ok status statusText body =>
      if !ok then
        (.error ("FMP API request failed: " ++ toString status), [.netCall url])
      else
        match body with
        | none =>
            (.error ("FMP API request failed: invalid JSON (" ++ toString status ++ " " ++
              statusText ++ ")"), [.netCall url])
        | some j => (.ok ⟨Json.obj [(subKey, j)], url.render⟩, [.netCall url])

/-- The `returnFMP` helper: optional cache write, then return. -/
def returnFMP (cacheable : Bool) (endpoint : String) (params : Params) (r : ApiResponse) :
    Except String ApiResponse × List Event :=
  (.ok r, if cacheable then [.cacheWrite endpoint params r.data r.url] else [])

/-- `returnFMP(await fetchFMP(...))`: a thrown sub-request error propagates
before `returnFMP` runs. -/
def thenReturnFMP (cacheable : Bool) (endpoint : String) (params : Params) :
    Except String ApiResponse × List Event → Except String ApiResponse × List Event
  | (.error e, tr) => (.error e, tr)
  | (.ok r, tr) =>
      let out := returnFMP cacheable endpoint params r
      (out.1, tr ++ out.2)

/-- JavaScript property read `j.k` on a non-nullish receiver. -/
def jsGet (j : Json) (k : String) : Json :=
  match j with
  | .obj fields => (fields.lookup k).getD .undefined
  | _ => .undefined

/-- `Array.isArray(arr) ? arr[0] : arr`. -/
def unwrapFirst : Json → Json
  | .arr [] => .undefined
  | .arr (x :: _) => x
  | j => j

/-- `(raw && typeof raw === 'object' && 'historical' in raw) ? raw.historical : raw`. -/
def extractHistorical : Json → Json
  | .obj fields =>
      match fields.lookup "historical" with
      | some h => h
      | none => .obj fields
  | j => j

/-- `f.type === ft` for a filing entry (strict equality against a string). -/
def typeMatches (ft : String) (f : Json) : Bool :=
  match jsGet f "type" with
  | .str t => t == ft
  | _ => false

/-- `filings.filter((f) => f.type === String(params.filing_type))`: property
access on a `null`/`undefined` element throws a `TypeError`, which rejects
the whole call. -/
def filterByType (ft : String) : List Json → Except String (List Json)
  | [] => .ok []
  | f :: rest =>
      match f with
      | .null => .error "TypeError: Cannot read properties of null (reading 'type')"
      | .undefined => .error "TypeError: Cannot read properties of undefined (reading 'type')"
      | _ =>
          match filterByType ft rest with
          | .error e => .error e
          | .ok r => .ok (if typeMatches ft f then f :: r else r)

/-- Fields of a JSON object (used to model object spread over the
single-key objects `fetchFMP` builds; the three spread keys are distinct, so
spread is concatenation). -/
def objFields : Json → List (String × Json)
  | .obj fields => fields
  | _ => []

def cryptoMsg : String :=
  "Cryptocurrency data requires a Financial Datasets API key (FINANCIAL_DATASETS_API_KEY). The FMP API adapter does not support crypto endpoints."

def filingItemsMsg : String :=
  "SEC filing content retrieval requires a Financial Datasets API key (FINANCIAL_DATASETS_API_KEY). The FMP API only supports filing metadata via get_filings, not full-text content."

def noCredentialMsg : String :=
  "No valid financial API key found (requires FINANCIAL_DATASETS_API_KEY or FMP_API_KEY)"

def missingTickerMsg : String := "Ticker is required for FMP API"

/-- The FMP (Secondary) branch of `callApi`: the ordered, first-match-wins
endpoint dispatch (source lines 149-279). -/
def fmpDispatch (env : Env) (endpoint : String) (params : Params) (cacheable : Bool)
    (label ticker fmpKey : String) : Except String ApiResponse × List Event :=
  if jsIncludes endpoint "income-statements" then
    thenReturnFMP cacheable endpoint params
      (fetchFMP env label ticker fmpKey params "/income-statement" "income_statements" [] false)
  else if jsIncludes endpoint "balance-sheets" then
    thenReturnFMP cacheable endpoint params
      (fetchFMP env label ticker fmpKey params "/balance-sheet-statement" "balance_sheets" [] false)
  else if jsIncludes endpoint "cash-flow-statements" then
    thenReturnFMP cacheable endpoint params
      (fetchFMP env label ticker fmpKey params "/cash-flow-statement" "cash_flow_statements" [] false)
  else if jsIncludes endpoint "/segmented-revenues/" then
    thenReturnFMP cacheable endpoint params
      (fetchFMP env label ticker fmpKey params "/revenue-product-segmentation" "segmented_revenues" [] false)
  else if endpoint = "/financials/" then
    let income := fetchFMP env label ticker fmpKey params "/income-statement" "income_statements" [] false
    let balance := fetchFMP env label ticker fmpKey params "/balance-sheet-statement" "balance_sheets" [] false
    let cash := fetchFMP env label ticker fmpKey params "/cash-flow-statement" "cash_flow_statements" [] false
    let tr := income.2 ++ balance.2 ++ cash.2
    match income.1, balance.1, cash.1 with
    | .ok i, .ok b, .ok c =>
        let data := Json.obj [("financials",
          Json.obj (objFields i.data ++ objFields b.data ++ objFields c.data))]
        let url := FMP_BASE_URL ++ "/(aggregated)"
        (.ok ⟨data, url⟩, tr ++ if cacheable then [.cacheWrite endpoint params data url] else [])
    | .error e, _, _ => (.error e, tr)
    | _, .error e, _ => (.error e, tr)
    | _, _, .error e => (.error e, tr)
  else if jsIncludes endpoint "/financial-metrics/snapshot/" then
    match fetchFMP env label ticker fmpKey params "/ratios-ttm" "snapshot" [] false with
    | (.error e, tr) => (.error e, tr)
    | (.ok r, tr) =>
        let r2 : ApiResponse := ⟨Json.obj [("snapshot", unwrapFirst (jsGet r.data "snapshot"))], r.url⟩
        let out := returnFMP cacheable endpoint params r2
        (out.1, tr ++ out.2)
  else if jsIncludes endpoint "/financial-metrics/" then
    thenReturnFMP cacheable endpoint params
      (fetchFMP env label ticker fmpKey params "/ratios" "financial_metrics" [] false)
  else if jsIncludes endpoint "/crypto/" then
    (.error cryptoMsg, [])
  else if jsIncludes endpoint "/prices/snapshot" then
    match fetchFMP env label ticker fmpKey params "/quote" "snapshot" [] false with
    | (.error e, tr) => (.error e, tr)
    | (.ok r, tr) =>
        let r2 : ApiResponse := ⟨Json.obj [("snapshot", unwrapFirst (jsGet r.data "snapshot"))], r.url⟩
        let out := returnFMP cacheable endpoint params r2
        (out.1, tr ++ out.2)
  else if endpoint = "/prices/" then
    let extra :=
      (if truthy (getParam params "start_date") then
        [("from", jsStringO (getParam params "start_date"))] else []) ++
      (if truthy (getParam params "end_date") then
        [("to", jsStringO (getParam params "end_date"))] else [])
    match fetchFMP env label ticker fmpKey params "/historical-price-eod/full" "prices" extra false with
    | (.error e, tr) => (.error e, tr)
    | (.ok r, tr) =>
        let r2 : ApiResponse := ⟨Json.obj [("prices", extractHistorical (jsGet r.data "prices"))], r.url⟩
        let out := returnFMP cacheable endpoint params r2
        (out.1, tr ++ out.2)
  else if endpoint = "/company/facts" then
    match fetchFMP env label ticker fmpKey params "/profile" "company_facts" [] false with
    | (.error e, tr) => (.error e, tr)
    | (.ok r, tr) =>
        let r2 : ApiResponse := ⟨Json.obj [("company_facts", unwrapFirst (jsGet r.data "company_facts"))], r.url⟩
        let out := returnFMP cacheable endpoint params r2
        (out.1, tr ++ out.2)
  else if jsIncludes endpoint "/analyst-estimates/" then
    thenReturnFMP cacheable endpoint params
      (fetchFMP env label ticker fmpKey params "/analyst-estimates" "analyst_estimates" [] false)
  else if jsIncludes endpoint "/insider-trades/" then
    thenReturnFMP cacheable endpoint params
      (fetchFMP env label ticker fmpKey params "/insider-trading/search" "insider_trades" [] false)
  else if endpoint = "/news/" then
    let extra := [("symbols", ticker)] ++
      (if truthy (getParam params "start_date") then
        [("from", jsStringO (getParam params "start_date"))] else []) ++
      (if truthy (getParam params "end_date") then
        [("to", jsStringO (getParam params "end_date"))] else [])
    thenReturnFMP cacheable endpoint params
      (fetchFMP env label ticker fmpKey params "/news/stock" "news" extra true)
  else if endpoint = "/filings/" then
    let today := isoDate env.now
    let oneYearAgo := isoDate (env.now - 365 * 86400000)
    let extra := [("from", oneYearAgo), ("to", today)]
    match fetchFMP env label ticker fmpKey params "/sec-filings-search/symbol" "filings" extra false with
    | (.error e, tr) => (.error e, tr)
    | (.ok r, tr) =>
        if truthy (getParam params "filing_type") then
          match jsGet r.data "filings" with
          | .arr xs =>
              match filterByType (jsStringO (getParam params "filing_type")) xs with
              | .error e => (.error e, tr)
              | .ok kept =>
                  let r2 : ApiResponse := ⟨Json.obj [("filings", Json.arr kept)], r.url⟩
                  let out := returnFMP cacheable endpoint params r2
                  (out.1, tr ++ out.2)
          | _ =>
              let out := returnFMP cacheable endpoint params r
              (out.1, tr ++ out.2)
        else
          let out := returnFMP cacheable endpoint params r
          (out.1, tr ++ out.2)
  else if jsIncludes endpoint "/filings/items/" then
    (.error filingItemsMsg, [])
  else
    (.error ("Endpoint " ++ endpoint ++ " not supported by FMP adapter yet"), [])

/-- The Primary (Financial Datasets) query: every non-undefined parameter in
order, array values appended as repeated entries. -/
def primaryQuery (params : Params) : List (String × String) :=
  params.flatMap fun kv =>
    match kv.2 with
    | none => []
    | some (ParamValue.arr vs) => vs.map fun v => (kv.1, v)
    | some v => [(kv.1, jsString v)]

/-- The Primary branch of `callApi` (source lines 45-91). -/
def primaryCall (env : Env) (endpoint : String) (params : Params) (cacheable : Bool)
    (label : String) : Except String ApiResponse × List Event :=
  let url : Url := ⟨BASE_URL, endpoint, primaryQuery params⟩
  match env.fetch url with
  | .netError msg =>
      (.error ("API request failed for " ++ label ++ ": " ++ msg), [.netCall url])
  | .response ok status statusText body =>
      if !ok then
        (.error ("API request failed: " ++ toString status ++ " " ++ statusText), [.netCall url])
      else
        match body with
        | none =>
            (.error ("API request failed: invalid JSON (" ++ toString status ++ " " ++
              statusText ++ ")"), [.netCall url])
        | some data =>
            (.ok ⟨data, url.render⟩,
              [.netCall url] ++ if cacheable then [.cacheWrite endpoint params data url.render] else [])

/-- `callApi` after the cache check: credential-driven backend selection. -/
def backendCall (env : Env) (endpoint : String) (params : Params) (cacheable : Bool) :
    Except String ApiResponse × List Event :=
  let label := describeRequest endpoint params
  if keyPresent env.fdKey then
    primaryCall env endpoint params cacheable label
  else if keyPresent env.fmpKey then
    if truthy (getParam params "ticker") = false then
      (.error missingTickerMsg, [])
    else
      fmpDispatch env endpoint params cacheable label
        (jsStringO (getParam params "ticker")) ((env.fmpKey).getD "")
  else
    (.error noCredentialMsg, [])

/-- The exported `callApi(endpoint, params, options)`. -/
def callApi (env : Env) (endpoint : String) (params : Params) (cacheable : Bool) :
    Except String ApiResponse × List Event :=
  if cacheable then
    match env.cache endpoint params with
    | some r => (.ok r, [.cacheRead endpoint params])
    | none =>
        let out := backendCall env endpoint params cacheable
        (out.1, .cacheRead endpoint params :: out.2)
  else
    backendCall env endpoint params cacheable

/-! ### Helper lemmas -/

theorem netCalls_append (a b : List Event) : netCalls (a ++ b) = netCalls a ++ netCalls b := by
  simp [netCalls]

theorem netCalls_cacheRead_cons (e : String) (p : Params) (t : List Event) :
    netCalls (Event.cacheRead e p :: t) = netCalls t := rfl

theorem netCalls_if_cacheWrite (c : Bool) (e : String) (p : Params) (d : Json) (u : String) :
    netCalls (if c then [Event.cacheWrite e p d u] else []) = [] := by
  cases c <;> rfl

/-- A non-cacheable call goes straight to the backend. -/
theorem callApi_noCache (env : Env) (e : String) (p : Params) :
    callApi env e p false = backendCall env e p false := rfl

/-- A cacheable call returns the cached response on a hit. -/
theorem callApi_cacheHit (env : Env) (e : String) (p : Params) (r : ApiResponse)
    (hc : env.cache e p = some r) :
    callApi env e p true = (.ok r, [.cacheRead e p]) := by
  unfold callApi
  rw [hc]
  rfl

/-- A cacheable call falls through to the backend on a miss, recording the
cache read. -/
theorem callApi_cacheMiss (env : Env) (e : String) (p : Params)
    (hc : env.cache e p = none) :
    callApi env e p true =
      ((backendCall env e p true).1, .cacheRead e p :: (backendCall env e p true).2) := by
  unfold callApi
  rw [hc]
  rfl

/-- With the Primary credential set, the backend call is the Primary client. -/
theorem backendCall_primary (env : Env) (e : String) (p : Params) (c : Bool)
    (hfd : keyPresent env.fdKey = true) :
    backendCall env e p c = primaryCall env e p c (describeRequest e p) := by
  unfold backendCall
  rw [hfd]
  rfl

/-- With neither credential set, the backend call fails with `NoCredential`
and does nothing else. -/
theorem backendCall_noCred (env : Env) (e : String) (p : Params) (c : Bool)
    (hfd : keyPresent env.fdKey = false) (hfmp : keyPresent env.fmpKey = false) :
    backendCall env e p c = (.error noCredentialMsg, []) := by
  unfold backendCall
  rw [hfd, hfmp]
  rfl

/-- With only FMP set and a falsy ticker, the backend call fails with
`MissingTicker` and does nothing else. -/
theorem backendCall_noTicker (env : Env) (e : String) (p : Params) (c : Bool)
    (hfd : keyPresent env.fdKey = false) (hfmp : keyPresent env.fmpKey = true)
    (htr : truthy (getParam p "ticker") = false) :
    backendCall env e p c = (.error missingTickerMsg, []) := by
  unfold backendCall
  rw [hfd, hfmp, htr]
  rfl

/-- With only FMP set and a truthy ticker, the backend call is the FMP
dispatch. -/
theorem backendCall_fmp (env : Env) (e : String) (p : Params) (c : Bool)
    (hfd : keyPresent env.fdKey = false) (hfmp : keyPresent env.fmpKey = true)
    (ht : truthy (getParam p "ticker") = true) :
    backendCall env e p c =
      fmpDispatch env e p c (describeRequest e p)
        (jsStringO (getParam p "ticker")) ((env.fmpKey).getD "") := by
  unfold backendCall
  rw [hfd, hfmp, ht]
  rfl

/-- With the Primary credential set and no cache hit, `callApi` behaves as
the Primary client (same result, same network calls). -/
theorem callApi_primary (env : Env) (endpoint : String) (params : Params) (cacheable : Bool)
    (hfd : keyPresent env.fdKey = true)
    (hmiss : cacheable = true → env.cache endpoint params = none) :
    (callApi env endpoint params cacheable).1 =
      (primaryCall env endpoint params cacheable (describeRequest endpoint params)).1 ∧
    netCalls (callApi env endpoint params cacheable).2 =
      netCalls (primaryCall env endpoint params cacheable (describeRequest endpoint params)).2 := by
  cases cacheable with
  | false =>
      rw [callApi_noCache, backendCall_primary env endpoint params false hfd]
      exact ⟨rfl, rfl⟩
  | true =>
      rw [callApi_cacheMiss env endpoint params (hmiss rfl),
        backendCall_primary env endpoint params true hfd]
      exact ⟨rfl, rfl⟩

/-- With only the FMP credential set, a truthy ticker and no cache hit,
`callApi` behaves as the FMP dispatch. -/
theorem callApi_fmp (env : Env) (endpoint : String) (params : Params) (cacheable : Bool)
    (hfd : keyPresent env.fdKey = false)
    (hfmp : keyPresent env.fmpKey = true)
    (ht : truthy (getParam params "ticker") = true)
    (hmiss : cacheable = true → env.cache endpoint params = none) :
    (callApi env endpoint params cacheable).1 =
      (fmpDispatch env endpoint params cacheable (describeRequest endpoint params)
        (jsStringO (getParam params "ticker")) ((env.fmpKey).getD "")).1 ∧
    netCalls (callApi env endpoint params cacheable).2 =
      netCalls (fmpDispatch env endpoint params cacheable (describeRequest endpoint params)
        (jsStringO (getParam params "ticker")) ((env.fmpKey).getD "")).2 := by
  cases cacheable with
  | false =>
      rw [callApi_noCache, backendCall_fmp env endpoint params false hfd hfmp ht]
      exact ⟨rfl, rfl⟩
  | true =>
      rw [callApi_cacheMiss env endpoint params (hmiss rfl),
        backendCall_fmp env endpoint params true hfd hfmp ht]
      exact ⟨rfl, rfl⟩

/-- `fetchFMP` performs exactly one network call, to its sub-request URL. -/
theorem fetchFMP_trace (env : Env) (label ticker fmpKey : String) (params : Params)
    (sub key : String) (extra : List (String × String)) (skip : Bool) :
    (fetchFMP env label ticker fmpKey params sub key extra skip).2 =
      [Event.netCall (fmpUrl ticker fmpKey params sub extra skip)] := by
  unfold fetchFMP
  dsimp only
  cases env.fetch (fmpUrl ticker fmpKey params sub extra skip) with
  | netError m => rfl
  | response ok st sx body => cases ok <;> cases body <;> rfl

/-- On a parsed 2xx body, `fetchFMP` returns the body under the sub-key. -/
theorem fetchFMP_success {env : Env} {label ticker fmpKey : String} {params : Params}
    {sub key : String} {extra : List (String × String)} {skip : Bool}
    {st : Nat} {sx : String} {j : Json}
    (h : env.fetch (fmpUrl ticker fmpKey params sub extra skip) =
      .response true st sx (some j)) :
    fetchFMP env label ticker fmpKey params sub key extra skip =
      (.ok ⟨Json.obj [(key, j)], (fmpUrl ticker fmpKey params sub extra skip).render⟩,
       [Event.netCall (fmpUrl ticker fmpKey params sub extra skip)]) := by
  unfold fetchFMP
  dsimp only
  rw [h]
  rfl

/-- A failing sub-request outcome makes `fetchFMP` fail. -/
theorem fetchFMP_fails (env : Env) (label ticker fmpKey : String) (params : Params)
    (sub key : String) (extra : List (String × String)) (skip : Bool)
    (h : outcomeFails (env.fetch (fmpUrl ticker fmpKey params sub extra skip)) = true) :
    ∃ e, (fetchFMP env label ticker fmpKey params sub key extra skip).1 = .error e := by
  revert h
  unfold outcomeFails fetchFMP
  dsimp only
  cases env.fetch (fmpUrl ticker fmpKey params sub extra skip) with
  | netError m => exact fun _ => ⟨_, rfl⟩
  | response ok st sx body =>
      cases ok <;> cases body <;> intro h
      · exact ⟨_, rfl⟩
      · exact ⟨_, rfl⟩
      · exact ⟨_, rfl⟩
      · simp at h

/-- The Primary client performs exactly one network call, to the
concatenated base-plus-endpoint URL with the flattened query. -/
theorem primaryCall_trace (env : Env) (endpoint : String) (params : Params)
    (cacheable : Bool) (label : String) :
    netCalls (primaryCall env endpoint params cacheable label).2 =
      [⟨BASE_URL, endpoint, primaryQuery params⟩] := by
  unfold primaryCall
  dsimp only
  cases env.fetch ⟨BASE_URL, endpoint, primaryQuery params⟩ with
  | netError m => rfl
  | response ok st sx body =>
      cases ok <;> cases body <;>
        simp [netCalls_append, netCalls_if_cacheWrite, netCalls]

/-! ### Claims C5, C9, C10, C2, C6 -/

/-- C5: on the Primary backend (Financial Datasets credential set, and the
call not short-circuited by a cache hit), for every endpoint whose fetch
succeeds with a parsed body, the returned `data` is exactly that parsed
body, with no transformation (identity law). -/
theorem primary_passthrough_identity
    (env : Env) (endpoint : String) (params : Params) (cacheable : Bool)
    (hfd : keyPresent env.fdKey = true)
    (hmiss : cacheable = true → env.cache endpoint params = none)
    (dataJ : Json) (st : Nat) (sx : String)
    (hfetch : env.fetch ⟨BASE_URL, endpoint, primaryQuery params⟩ =
      .response true st sx (some dataJ)) :
    (callApi env endpoint params cacheable).1 =
      .ok ⟨dataJ, Url.render ⟨BASE_URL, endpoint, primaryQuery params⟩⟩ := by
  rw [(callApi_primary env endpoint params cacheable hfd hmiss).1]
  unfold primaryCall
  dsimp only
  rw [hfetch]
  rfl

def envW5 : Env :=
  { fdKey := some "fd-key", fmpKey := none,
    cache := fun _ _ => none,
    fetch := fun _ => .response true 200 "OK" (some (Json.obj [("prices", Json.arr [Json.num 3])])),
    now := 0 }

/-- Witness for C5 at a concrete environment and endpoint. -/
theorem primary_passthrough_identity_witness :
    keyPresent envW5.fdKey = true ∧
    (callApi envW5 "/prices/" [("ticker", some (ParamValue.s "AAPL"))] false).1 =
      .ok ⟨Json.obj [("prices", Json.arr [Json.num 3])],
        Url.render ⟨BASE_URL, "/prices/", [("ticker", "AAPL")]⟩⟩ :=
  ⟨rfl, primary_passthrough_identity envW5 "/prices/" [("ticker", some (ParamValue.s "AAPL"))]
    false rfl (fun h => by cases h) (Json.obj [("prices", Json.arr [Json.num 3])]) 200 "OK" rfl⟩

/-- C9: on the Primary backend, every call issues exactly one request, whose
URL is the fixed base address, the canonical endpoint as the path, and every
non-undefined parameter as a query entry — an array-valued parameter
contributing one repeated entry per element, in order, never a joined CSV
value. -/
theorem primary_url_building
    (env : Env) (endpoint : String) (params : Params) (cacheable : Bool)
    (hfd : keyPresent env.fdKey = true)
    (hmiss : cacheable = true → env.cache endpoint params = none) :
    netCalls (callApi env endpoint params cacheable).2 =
      [⟨BASE_URL, endpoint,
        params.flatMap fun kv =>
          match kv.2 with
          | none => []
          | some (ParamValue.arr vs) => vs.map fun v => (kv.1, v)
          | some v => [(kv.1, jsString v)]⟩] := by
  rw [(callApi_primary env endpoint params cacheable hfd hmiss).2]
  exact primaryCall_trace env endpoint params cacheable (describeRequest endpoint params)

def envW9 : Env :=
  { fdKey := some "fd-key", fmpKey := none,
    cache := fun _ _ => none,
    fetch := fun _ => .response true 200 "OK" (some (Json.arr [])),
    now := 0 }

/-- Witness for C9: an array-valued `item` parameter becomes repeated query
entries, an undefined parameter is dropped, a numeric one is stringified. -/
theorem primary_url_building_witness :
    keyPresent envW9.fdKey = true ∧
    netCalls (callApi envW9 "/filings/items/"
      [("item", some (ParamValue.arr ["a", "b"])), ("gap", none), ("limit", some (ParamValue.n 5))]
      false).2 =
      [⟨BASE_URL, "/filings/items/", [("item", "a"), ("item", "b"), ("limit", "5")]⟩] :=
  ⟨rfl, primary_url_building envW9 "/filings/items/"
    [("item", some (ParamValue.arr ["a", "b"])), ("gap", none), ("limit", some (ParamValue.n 5))]
    false rfl (fun h => by cases h)⟩

/-- C10: when both credentials are set, the call behaves exactly as with
only the Primary credential set — the Secondary branch is unreachable, no
special error is raised for the double-credential state, and every network
call goes to the Primary base address. -/
theorem both_credentials_use_primary
    (env : Env) (endpoint : String) (params : Params) (cacheable : Bool)
    (hfd : keyPresent env.fdKey = true)
    (hfmp : keyPresent env.fmpKey = true) :
    callApi env endpoint params cacheable =
      callApi { env with fmpKey := none } endpoint params cacheable ∧
    ∀ u ∈ netCalls (callApi env endpoint params cacheable).2, u.base = BASE_URL := by
  have hdouble : keyPresent env.fmpKey = true := hfmp
  clear hdouble
  constructor
  · have hb : ∀ c, backendCall env endpoint params c =
        backendCall { env with fmpKey := none } endpoint params c := by
      intro c
      rw [backendCall_primary env endpoint params c hfd,
        backendCall_primary { env with fmpKey := none } endpoint params c hfd]
      rfl
    unfold callApi
    rw [hb cacheable]
  · intro u hu
    cases cacheable with
    | false =>
        rw [callApi_noCache, backendCall_primary env endpoint params false hfd,
          primaryCall_trace] at hu
        simp at hu
        rw [hu]
    | true =>
        cases hc : env.cache endpoint params with
        | some r =>
            rw [callApi_cacheHit env endpoint params r hc] at hu
            simp [netCalls] at hu
        | none =>
            rw [callApi_cacheMiss env endpoint params hc] at hu
            dsimp only at hu
            rw [netCalls_cacheRead_cons, backendCall_primary env endpoint params true hfd,
              primaryCall_trace] at hu
            simp at hu
            rw [hu]

def envW10 : Env :=
  { fdKey := some "fd-key", fmpKey := some "fmp-key",
    cache := fun _ _ => none,
    fetch := fun _ => .response true 200 "OK" (some (Json.arr [Json.num 1])),
    now := 0 }

/-- Witness for C10 at a concrete double-credential environment. -/
theorem both_credentials_use_primary_witness :
    keyPresent envW10.fdKey = true ∧ keyPresent envW10.fmpKey = true ∧
    callApi envW10 "/news/" [("ticker", some (ParamValue.s "AAPL"))] false =
      callApi { envW10 with fmpKey := none } "/news/" [("ticker", some (ParamValue.s "AAPL"))] false :=
  ⟨rfl, rfl,
    (both_credentials_use_primary envW10 "/news/" [("ticker", some (ParamValue.s "AAPL"))]
      false rfl rfl).1⟩

def envC2 : Env :=
  { fdKey := none, fmpKey := none,
    cache := fun _ _ => none,
    fetch := fun _ => .netError "unreachable",
    now := 0 }

/-- C2 counterexample: with neither credential set and `cacheable` true, the
call performs a cache read (here exactly one, on an empty cache) before
failing with `NoCredential` — the claim asserts zero cache reads even when
`options.cacheable` is true. -/
theorem no_credential_claim_counterexample :
    keyPresent envC2.fdKey = false ∧ keyPresent envC2.fmpKey = false ∧
    (callApi envC2 "/prices/" [("ticker", some (ParamValue.s "AAPL"))] true).1 =
      .error noCredentialMsg ∧
    cacheReads (callApi envC2 "/prices/" [("ticker", some (ParamValue.s "AAPL"))] true).2 = 1 ∧
    cacheReads (callApi envC2 "/prices/" [("ticker", some (ParamValue.s "AAPL"))] true).2 ≠ 0 :=
  ⟨rfl, rfl, rfl, rfl, by decide⟩

/-- C2 (amended): with neither credential set, the call performs zero
network calls and zero cache writes; it performs one cache read exactly when
`cacheable` is true and none otherwise; unless a cacheable call hits the
cache, it fails with `NoCredential`; on a cache hit the cached response is
returned without error. -/
theorem no_credential_behaviour
    (env : Env) (endpoint : String) (params : Params) (cacheable : Bool)
    (hfd : keyPresent env.fdKey = false)
    (hfmp : keyPresent env.fmpKey = false) :
    netCalls (callApi env endpoint params cacheable).2 = [] ∧
    cacheWrites (callApi env endpoint params cacheable).2 = 0 ∧
    cacheReads (callApi env endpoint params cacheable).2 = (if cacheable then 1 else 0) ∧
    ((cacheable = true → env.cache endpoint params = none) →
      (callApi env endpoint params cacheable).1 = .error noCredentialMsg) ∧
    (∀ c, cacheable = true → env.cache endpoint params = some c →
      (callApi env endpoint params cacheable).1 = .ok c) := by
  cases cacheable with
  | false =>
      rw [callApi_noCache, backendCall_noCred env endpoint params false hfd hfmp]
      exact ⟨rfl, rfl, rfl, fun _ => rfl, fun c h => by cases h⟩
  | true =>
      rcases Option.eq_none_or_eq_some (env.cache endpoint params) with hc | ⟨c, hc⟩
      · rw [callApi_cacheMiss env endpoint params hc,
          backendCall_noCred env endpoint params true hfd hfmp]
        refine ⟨rfl, rfl, rfl, fun _ => rfl, ?_⟩
        intro d _ hd
        rw [hd] at hc
        cases hc
      · rw [callApi_cacheHit env endpoint params c hc]
        refine ⟨rfl, rfl, rfl, ?_, ?_⟩
        · intro h
          rw [h rfl] at hc
          cases hc
        · intro d _ hd
          rw [hd] at hc
          injection hc with hh
          rw [hh]

/-- Witness for the amended C2 at a concrete environment. -/
theorem no_credential_behaviour_witness :
    keyPresent envC2.fdKey = false ∧ keyPresent envC2.fmpKey = false ∧
    netCalls (callApi envC2 "/financials/" [] false).2 = [] ∧
    (callApi envC2 "/financials/" [] false).1 = .error noCredentialMsg :=
  ⟨rfl, rfl,
    (no_credential_behaviour envC2 "/financials/" [] false rfl rfl).1,
    (no_credential_behaviour envC2 "/financials/" [] false rfl rfl).2.2.2.1 (fun h => by cases h)⟩

/-- C6: with only the FMP credential set and `parameters.ticker` absent or
the empty string, the call (not short-circuited by a cache hit) fails with
`MissingTicker` and performs zero network calls, for every endpoint
including unsupported ones. -/
theorem missing_ticker_no_network
    (env : Env) (endpoint : String) (params : Params) (cacheable : Bool)
    (hfd : keyPresent env.fdKey = false)
    (hfmp : keyPresent env.fmpKey = true)
    (ht : getParam params "ticker" = none ∨ getParam params "ticker" = some (ParamValue.s ""))
    (hmiss : cacheable = true → env.cache endpoint params = none) :
    (callApi env endpoint params cacheable).1 = .error missingTickerMsg ∧
    netCalls (callApi env endpoint params cacheable).2 = [] := by
  have htr : truthy (getParam params "ticker") = false := by
    rcases ht with h | h <;> rw [h] <;> rfl
  cases cacheable with
  | false =>
      rw [callApi_noCache, backendCall_noTicker env endpoint params false hfd hfmp htr]
      exact ⟨rfl, rfl⟩
  | true =>
      rw [callApi_cacheMiss env endpoint params (hmiss rfl),
        backendCall_noTicker env endpoint params true hfd hfmp htr]
      exact ⟨rfl, rfl⟩

def envW6 : Env :=
  { fdKey := none, fmpKey := some "fmp-key",
    cache := fun _ _ => none,
    fetch := fun _ => .netError "unreachable",
    now := 0 }

/-- Witness for C6: no ticker, FMP-only credential. -/
theorem missing_ticker_no_network_witness :
    keyPresent envW6.fdKey = false ∧ keyPresent envW6.fmpKey = true ∧
    (callApi envW6 "/financials/income-statements/" [("limit", some (ParamValue.n 1))] false).1 =
      .error missingTickerMsg ∧
    netCalls (callApi envW6 "/financials/income-statements/" [("limit", some (ParamValue.n 1))] false).2 = [] :=
  ⟨rfl, rfl,
    (missing_ticker_no_network envW6 "/financials/income-statements/"
      [("limit", some (ParamValue.n 1))] false rfl rfl (Or.inl rfl) (fun h => by cases h)).1,
    (missing_ticker_no_network envW6 "/financials/income-statements/"
      [("limit", some (ParamValue.n 1))] false rfl rfl (Or.inl rfl) (fun h => by cases h)).2⟩

/-- At the literal `/financials/` endpoint, the FMP dispatch is the
three-statement fan-out (the four preceding substring rules do not match). -/
theorem fmpDispatch_financials (env : Env) (params : Params) (cacheable : Bool)
    (label tk fk : String) :
    fmpDispatch env "/financials/" params cacheable label tk fk =
      (let income := fetchFMP env label tk fk params "/income-statement" "income_statements" [] false
       let balance := fetchFMP env label tk fk params "/balance-sheet-statement" "balance_sheets" [] false
       let cash := fetchFMP env label tk fk params "/cash-flow-statement" "cash_flow_statements" [] false
       let tr := income.2 ++ balance.2 ++ cash.2
       match income.1, balance.1, cash.1 with
       | .ok i, .ok b, .ok c =>
           let data := Json.obj [("financials",
             Json.obj (objFields i.data ++ objFields b.data ++ objFields c.data))]
           let url := FMP_BASE_URL ++ "/(aggregated)"
           (.ok ⟨data, url⟩, tr ++ if cacheable then [.cacheWrite "/financials/" params data url] else [])
       | .error e, _, _ => (.error e, tr)
       | _, .error e, _ => (.error e, tr)
       | _, _, .error e => (.error e, tr)) := rfl

/-- An `ok` result of `fetchFMP` means its fetch outcome was not failing. -/
theorem fetchFMP_ok_not_fails {env : Env} {label ticker fmpKey : String} {params : Params}
    {sub key : String} {extra : List (String × String)} {skip : Bool} {r : ApiResponse}
    (h : (fetchFMP env label ticker fmpKey params sub key extra skip).1 = Except.ok r) :
    outcomeFails (env.fetch (fmpUrl ticker fmpKey params sub extra skip)) = false := by
  revert h
  unfold fetchFMP outcomeFails
  dsimp only
  cases env.fetch (fmpUrl ticker fmpKey params sub extra skip) with
  | netError m => intro h; exact Except.noConfusion h
  | response ok st sx body =>
      cases ok <;> cases body <;> intro h
      · exact Except.noConfusion h
      · exact Except.noConfusion h
      · exact Except.noConfusion h
      · rfl

theorem netCalls_netCall_single (u : Url) : netCalls [Event.netCall u] = [u] := rfl

theorem netCalls_netCall_cons (u : Url) (t : List Event) :
    netCalls (Event.netCall u :: t) = u :: netCalls t := rfl

theorem netCalls_nil : netCalls [] = [] := rfl

/-- C1: on the Secondary (FMP-only) backend with a ticker present and no
cache hit, `/financials/` issues exactly the three statement sub-requests
(all three are issued regardless of individual outcomes, matching the
concurrent `Promise.all` fan-out); on success the returned data has the
single top-level key `financials` whose keys are exactly
`income_statements`, `balance_sheets`, `cash_flow_statements`; if any one
sub-request fails, the whole call fails with no partial result. -/
theorem financials_fanout
    (env : Env) (params : Params) (cacheable : Bool)
    (hfd : keyPresent env.fdKey = false)
    (hfmp : keyPresent env.fmpKey = true)
    (ht : truthy (getParam params "ticker") = true)
    (hmiss : cacheable = true → env.cache "/financials/" params = none) :
    netCalls (callApi env "/financials/" params cacheable).2 =
      [fmpUrl (jsStringO (getParam params "ticker")) ((env.fmpKey).getD "") params "/income-statement" [] false,
       fmpUrl (jsStringO (getParam params "ticker")) ((env.fmpKey).getD "") params "/balance-sheet-statement" [] false,
       fmpUrl (jsStringO (getParam params "ticker")) ((env.fmpKey).getD "") params "/cash-flow-statement" [] false] ∧
    (∀ i b c st1 sx1 st2 sx2 st3 sx3,
      env.fetch (fmpUrl (jsStringO (getParam params "ticker")) ((env.fmpKey).getD "") params "/income-statement" [] false) = .response true st1 sx1 (some i) →
      env.fetch (fmpUrl (jsStringO (getParam params "ticker")) ((env.fmpKey).getD "") params "/balance-sheet-statement" [] false) = .response true st2 sx2 (some b) →
      env.fetch (fmpUrl (jsStringO (getParam params "ticker")) ((env.fmpKey).getD "") params "/cash-flow-statement" [] false) = .response true st3 sx3 (some c) →
      (callApi env "/financials/" params cacheable).1 =
        .ok ⟨Json.obj [("financials", Json.obj [("income_statements", i), ("balance_sheets", b), ("cash_flow_statements", c)])],
          FMP_BASE_URL ++ "/(aggregated)"⟩) ∧
    ((outcomeFails (env.fetch (fmpUrl (jsStringO (getParam params "ticker")) ((env.fmpKey).getD "") params "/income-statement" [] false)) ||
      outcomeFails (env.fetch (fmpUrl (jsStringO (getParam params "ticker")) ((env.fmpKey).getD "") params "/balance-sheet-statement" [] false)) ||
      outcomeFails (env.fetch (fmpUrl (jsStringO (getParam params "ticker")) ((env.fmpKey).getD "") params "/cash-flow-statement" [] false))) = true →
      ∃ e, (callApi env "/financials/" params cacheable).1 = .error e) := by
  obtain ⟨hres, htr⟩ := callApi_fmp env "/financials/" params cacheable hfd hfmp ht hmiss
  rw [fmpDispatch_financials] at hres htr
  dsimp only at hres htr
  refine ⟨?_, ?_, ?_⟩
  · rw [htr]
    rcases hI : (fetchFMP env (describeRequest "/financials/" params) (jsStringO (getParam params "ticker")) ((env.fmpKey).getD "") params "/income-statement" "income_statements" [] false).1 with eI | rI <;>
    rcases hB : (fetchFMP env (describeRequest "/financials/" params) (jsStringO (getParam params "ticker")) ((env.fmpKey).getD "") params "/balance-sheet-statement" "balance_sheets" [] false).1 with eB | rB <;>
    rcases hC : (fetchFMP env (describeRequest "/financials/" params) (jsStringO (getParam params "ticker")) ((env.fmpKey).getD "") params "/cash-flow-statement" "cash_flow_statements" [] false).1 with eC | rC <;>
      simp [hI, hB, hC, fetchFMP_trace, netCalls_append, netCalls_netCall_single, netCalls_netCall_cons, netCalls_nil, netCalls_if_cacheWrite]
  · intro i b c st1 sx1 st2 sx2 st3 sx3 hif hbf hcf
    rw [hres]
    rw [fetchFMP_success hif, fetchFMP_success hbf, fetchFMP_success hcf]
    rfl
  · intro h
    rw [hres]
    rcases hI : (fetchFMP env (describeRequest "/financials/" params) (jsStringO (getParam params "ticker")) ((env.fmpKey).getD "") params "/income-statement" "income_statements" [] false).1 with eI | rI
    · exact ⟨eI, by simp [hI]⟩
    · rcases hB : (fetchFMP env (describeRequest "/financials/" params) (jsStringO (getParam params "ticker")) ((env.fmpKey).getD "") params "/balance-sheet-statement" "balance_sheets" [] false).1 with eB | rB
      · exact ⟨eB, by simp [hI, hB]⟩
      · rcases hC : (fetchFMP env (describeRequest "/financials/" params) (jsStringO (getParam params "ticker")) ((env.fmpKey).getD "") params "/cash-flow-statement" "cash_flow_statements" [] false).1 with eC | rC
        · exact ⟨eC, by simp [hI, hB, hC]⟩
        · rw [fetchFMP_ok_not_fails hI, fetchFMP_ok_not_fails hB, fetchFMP_ok_not_fails hC] at h
          simp at h

def envW1 : Env :=
  { fdKey := none, fmpKey := some "w1",
    cache := fun _ _ => none,
    fetch := fun u =>
      if u.path = "/income-statement" then .response true 200 "OK" (some (Json.num 1))
      else if u.path = "/balance-sheet-statement" then .response true 200 "OK" (some (Json.num 2))
      else .response true 200 "OK" (some (Json.num 3)),
    now := 0 }

/-- Witness for C1: three distinct statement bodies are merged under the
`financials` key after exactly three sub-requests. -/
theorem financials_fanout_witness :
    keyPresent envW1.fdKey = false ∧ keyPresent envW1.fmpKey = true ∧
    truthy (getParam [("ticker", some (ParamValue.s "AAPL"))] "ticker") = true ∧
    netCalls (callApi envW1 "/financials/" [("ticker", some (ParamValue.s "AAPL"))] false).2 =
      [fmpUrl "AAPL" "w1" [("ticker", some (ParamValue.s "AAPL"))] "/income-statement" [] false,
       fmpUrl "AAPL" "w1" [("ticker", some (ParamValue.s "AAPL"))] "/balance-sheet-statement" [] false,
       fmpUrl "AAPL" "w1" [("ticker", some (ParamValue.s "AAPL"))] "/cash-flow-statement" [] false] ∧
    (callApi envW1 "/financials/" [("ticker", some (ParamValue.s "AAPL"))] false).1 =
      .ok ⟨Json.obj [("financials", Json.obj [("income_statements", Json.num 1),
        ("balance_sheets", Json.num 2), ("cash_flow_statements", Json.num 3)])],
        FMP_BASE_URL ++ "/(aggregated)"⟩ :=
  ⟨rfl, rfl, rfl,
   (financials_fanout envW1 [("ticker", some (ParamValue.s "AAPL"))] false rfl rfl rfl
     (fun h => by cases h)).1,
   (financials_fanout envW1 [("ticker", some (ParamValue.s "AAPL"))] false rfl rfl rfl
     (fun h => by cases h)).2.1 (Json.num 1) (Json.num 2) (Json.num 3) 200 "OK" 200 "OK" 200 "OK"
     rfl rfl rfl⟩

/-- At the literal `/filings/` endpoint, the FMP dispatch is the
sec-filings-search sub-request with the synthesized 365-day window and the
optional client-side type filter (no earlier rule matches). -/
theorem fmpDispatch_filings (env : Env) (params : Params) (cacheable : Bool)
    (label tk fk : String) :
    fmpDispatch env "/filings/" params cacheable label tk fk =
      (match fetchFMP env label tk fk params "/sec-filings-search/symbol" "filings"
          [("from", isoDate (env.now - 365 * 86400000)), ("to", isoDate env.now)] false with
       | (.error e, tr) => (.error e, tr)
       | (.ok r, tr) =>
           if truthy (getParam params "filing_type") then
             match jsGet r.data "filings" with
             | .arr xs =>
                 match filterByType (jsStringO (getParam params "filing_type")) xs with
                 | .error e => (.error e, tr)
                 | .ok kept =>
                     let r2 : ApiResponse := ⟨Json.obj [("filings", Json.arr kept)], r.url⟩
                     let out := returnFMP cacheable "/filings/" params r2
                     (out.1, tr ++ out.2)
             | _ =>
                 let out := returnFMP cacheable "/filings/" params r
                 (out.1, tr ++ out.2)
           else
             let out := returnFMP cacheable "/filings/" params r
             (out.1, tr ++ out.2)) := by
  unfold fmpDispatch
  rfl

/-- On nullish-free input, the client-side filings filter is `List.filter`
with the strict type-equality predicate. -/
theorem filterByType_eq_filter (ft : String) (xs : List Json)
    (h : ∀ f ∈ xs, f ≠ Json.null ∧ f ≠ Json.undefined) :
    filterByType ft xs = .ok (xs.filter (typeMatches ft)) := by
  induction xs with
  | nil => rfl
  | cons f rest ih =>
      have hf := h f (List.mem_cons_self f rest)
      have hr : ∀ g ∈ rest, g ≠ Json.null ∧ g ≠ Json.undefined :=
        fun g hg => h g (List.mem_cons_of_mem f hg)
      cases f with
      | null => exact absurd rfl hf.1
      | undefined => exact absurd rfl hf.2
      | bool b => simp [filterByType, ih hr, List.filter_cons]
      | num n => simp [filterByType, ih hr, List.filter_cons]
      | str s => simp [filterByType, ih hr, List.filter_cons]
      | arr elems => simp [filterByType, ih hr, List.filter_cons]
      | obj fields => simp [filterByType, ih hr, List.filter_cons]

/-- C3: on the Secondary backend, every `/filings/` call issues exactly one
sub-request that always carries the synthesized date window
`from = today - 365 days`, `to = today` regardless of caller parameters;
and with `filing_type` set, a raw array response is post-filtered
client-side to exactly the elements whose `type` field equals the requested
type, in original relative order. -/
theorem filings_window_and_type_filter
    (env : Env) (params : Params) (cacheable : Bool)
    (hfd : keyPresent env.fdKey = false)
    (hfmp : keyPresent env.fmpKey = true)
    (ht : truthy (getParam params "ticker") = true)
    (hmiss : cacheable = true → env.cache "/filings/" params = none) :
    ((fmpUrl (jsStringO (getParam params "ticker")) ((env.fmpKey).getD "") params
        "/sec-filings-search/symbol"
        [("from", isoDate (env.now - 365 * 86400000)), ("to", isoDate env.now)] false).query.lookup "from" =
        some (isoDate (env.now - 365 * 86400000)) ∧
      (fmpUrl (jsStringO (getParam params "ticker")) ((env.fmpKey).getD "") params
        "/sec-filings-search/symbol"
        [("from", isoDate (env.now - 365 * 86400000)), ("to", isoDate env.now)] false).query.lookup "to" =
        some (isoDate env.now) ∧
      netCalls (callApi env "/filings/" params cacheable).2 =
        [fmpUrl (jsStringO (getParam params "ticker")) ((env.fmpKey).getD "") params
          "/sec-filings-search/symbol"
          [("from", isoDate (env.now - 365 * 86400000)), ("to", isoDate env.now)] false]) ∧
    (∀ xs st sx ft,
      getParam params "filing_type" = some (ParamValue.s ft) → ft ≠ "" →
      env.fetch (fmpUrl (jsStringO (getParam params "ticker")) ((env.fmpKey).getD "") params
        "/sec-filings-search/symbol"
        [("from", isoDate (env.now - 365 * 86400000)), ("to", isoDate env.now)] false) =
          .response true st sx (some (Json.arr xs)) →
      (∀ f ∈ xs, f ≠ Json.null ∧ f ≠ Json.undefined) →
      (callApi env "/filings/" params cacheable).1 =
        .ok ⟨Json.obj [("filings", Json.arr (xs.filter (typeMatches ft)))],
          (fmpUrl (jsStringO (getParam params "ticker")) ((env.fmpKey).getD "") params
            "/sec-filings-search/symbol"
            [("from", isoDate (env.now - 365 * 86400000)), ("to", isoDate env.now)] false).render⟩) := by
  obtain ⟨hres, htr⟩ := callApi_fmp env "/filings/" params cacheable hfd hfmp ht hmiss
  rw [fmpDispatch_filings] at hres htr
  refine ⟨⟨?_, ?_, ?_⟩, ?_⟩
  · unfold fmpUrl fmpQuery limitQuery periodQuery
    dsimp only
    split_ifs <;> simp [List.lookup]
  · unfold fmpUrl fmpQuery limitQuery periodQuery
    dsimp only
    split_ifs <;> simp [List.lookup]
  · rw [htr]
    have htrace := fetchFMP_trace env (describeRequest "/filings/" params)
      (jsStringO (getParam params "ticker")) ((env.fmpKey).getD "") params
      "/sec-filings-search/symbol" "filings"
      [("from", isoDate (env.now - 365 * 86400000)), ("to", isoDate env.now)] false
    rcases hFp : fetchFMP env (describeRequest "/filings/" params)
      (jsStringO (getParam params "ticker")) ((env.fmpKey).getD "") params
      "/sec-filings-search/symbol" "filings"
      [("from", isoDate (env.now - 365 * 86400000)), ("to", isoDate env.now)] false with ⟨res, trc⟩
    rw [hFp] at htrace
    dsimp only at htrace
    subst htrace
    rcases res with e | r
    · simp [netCalls_netCall_single]
    · dsimp only
      split <;> (try split) <;> (try split) <;>
        simp [returnFMP, netCalls_append, netCalls_netCall_single, netCalls_netCall_cons,
          netCalls_nil, netCalls_if_cacheWrite]
  · intro xs st sx ft hft hftne hfetch hnn
    have htk : truthy (getParam params "filing_type") = true := by
      rw [hft]
      simp [truthy, truthyV, hftne]
    have hjs : jsStringO (getParam params "filing_type") = ft := by rw [hft]; rfl
    rw [hres, fetchFMP_success hfetch]
    simp [htk, hjs, jsGet, returnFMP, filterByType_eq_filter ft xs hnn]

def envW3 : Env :=
  { fdKey := none, fmpKey := some "w3",
    cache := fun _ _ => none,
    fetch := fun _ => .response true 200 "OK" (some (Json.arr
      [Json.obj [("type", Json.str "10-K")], Json.obj [("type", Json.str "8-K")],
       Json.obj [("type", Json.str "10-K")]])),
    now := 1760140800000 }

/-- Witness for C3: at 2025-10-11 UTC the window is 2024-10-11..2025-10-11,
and a mixed `10-K`/`8-K` array is filtered to the `10-K` entries in order. -/
theorem filings_window_and_type_filter_witness :
    keyPresent envW3.fdKey = false ∧ keyPresent envW3.fmpKey = true ∧
    isoDate envW3.now = "2025-10-11" ∧
    isoDate (envW3.now - 365 * 86400000) = "2024-10-11" ∧
    (callApi envW3 "/filings/"
      [("ticker", some (ParamValue.s "AAPL")), ("filing_type", some (ParamValue.s "10-K"))] false).1 =
      .ok ⟨Json.obj [("filings", Json.arr
          [Json.obj [("type", Json.str "10-K")], Json.obj [("type", Json.str "10-K")]])],
        (fmpUrl "AAPL" "w3"
          [("ticker", some (ParamValue.s "AAPL")), ("filing_type", some (ParamValue.s "10-K"))]
          "/sec-filings-search/symbol" [("from", "2024-10-11"), ("to", "2025-10-11")] false).render⟩ :=
  ⟨rfl, rfl, rfl, rfl,
    (filings_window_and_type_filter envW3
      [("ticker", some (ParamValue.s "AAPL")), ("filing_type", some (ParamValue.s "10-K"))]
      false rfl rfl rfl (fun h => by cases h)).2
      [Json.obj [("type", Json.str "10-K")], Json.obj [("type", Json.str "8-K")],
       Json.obj [("type", Json.str "10-K")]] 200 "OK" "10-K" rfl (by decide) rfl
      (by intro f hf; fin_cases hf <;>
        exact ⟨fun hh => Json.noConfusion hh, fun hh => Json.noConfusion hh⟩)⟩

/-- First element of a non-empty array. -/
theorem unwrapFirst_arr_cons (x : Json) (rest : List Json) :
    unwrapFirst (Json.arr (x :: rest)) = x := rfl

/-- A non-array value passes through `Array.isArray(x) ? x[0] : x` unchanged. -/
theorem unwrapFirst_not_arr (j : Json) (h : ∀ ys, j ≠ Json.arr ys) : unwrapFirst j = j := by
  cases j <;> first | rfl | exact absurd rfl (h _)

/-- The ordered dispatch selects the `/financial-metrics/snapshot/` rule:
no earlier rule matches and the snapshot predicate holds. -/
def matchesMetricsSnapshotRule (endpoint : String) : Prop :=
  jsIncludes endpoint "income-statements" = false ∧
  jsIncludes endpoint "balance-sheets" = false ∧
  jsIncludes endpoint "cash-flow-statements" = false ∧
  jsIncludes endpoint "/segmented-revenues/" = false ∧
  endpoint ≠ "/financials/" ∧
  jsIncludes endpoint "/financial-metrics/snapshot/" = true

/-- The ordered dispatch selects the `/prices/snapshot` rule: no earlier
rule (including the crypto guard) matches and the prices-snapshot predicate
holds. -/
def matchesPricesSnapshotRule (endpoint : String) : Prop :=
  jsIncludes endpoint "income-statements" = false ∧
  jsIncludes endpoint "balance-sheets" = false ∧
  jsIncludes endpoint "cash-flow-statements" = false ∧
  jsIncludes endpoint "/segmented-revenues/" = false ∧
  endpoint ≠ "/financials/" ∧
  jsIncludes endpoint "/financial-metrics/snapshot/" = false ∧
  jsIncludes endpoint "/financial-metrics/" = false ∧
  jsIncludes endpoint "/crypto/" = false ∧
  jsIncludes endpoint "/prices/snapshot" = true

/-- When the metrics-snapshot rule fires, the dispatch is the `ratios-ttm`
sub-request with the first-element unwrap. -/
theorem fmpDispatch_metricsSnapshot (env : Env) (endpoint : String) (params : Params)
    (cacheable : Bool) (label tk fk : String)
    (h1 : jsIncludes endpoint "income-statements" = false)
    (h2 : jsIncludes endpoint "balance-sheets" = false)
    (h3 : jsIncludes endpoint "cash-flow-statements" = false)
    (h4 : jsIncludes endpoint "/segmented-revenues/" = false)
    (h5 : endpoint ≠ "/financials/")
    (h6 : jsIncludes endpoint "/financial-metrics/snapshot/" = true) :
    fmpDispatch env endpoint params cacheable label tk fk =
      (match fetchFMP env label tk fk params "/ratios-ttm" "snapshot" [] false with
       | (.error e, tr) => (.error e, tr)
       | (.ok r, tr) =>
           let r2 : ApiResponse := ⟨Json.obj [("snapshot", unwrapFirst (jsGet r.data "snapshot"))], r.url⟩
           let out := returnFMP cacheable endpoint params r2
           (out.1, tr ++ out.2)) := by
  unfold fmpDispatch
  rw [h1, h2, h3, h4, h6, if_neg h5]
  rfl

/-- When the prices-snapshot rule fires, the dispatch is the `quote`
sub-request with the first-element unwrap. -/
theorem fmpDispatch_pricesSnapshot (env : Env) (endpoint : String) (params : Params)
    (cacheable : Bool) (label tk fk : String)
    (h1 : jsIncludes endpoint "income-statements" = false)
    (h2 : jsIncludes endpoint "balance-sheets" = false)
    (h3 : jsIncludes endpoint "cash-flow-statements" = false)
    (h4 : jsIncludes endpoint "/segmented-revenues/" = false)
    (h5 : endpoint ≠ "/financials/")
    (h6 : jsIncludes endpoint "/financial-metrics/snapshot/" = false)
    (h7 : jsIncludes endpoint "/financial-metrics/" = false)
    (h8 : jsIncludes endpoint "/crypto/" = false)
    (h9 : jsIncludes endpoint "/prices/snapshot" = true) :
    fmpDispatch env endpoint params cacheable label tk fk =
      (match fetchFMP env label tk fk params "/quote" "snapshot" [] false with
       | (.error e, tr) => (.error e, tr)
       | (.ok r, tr) =>
           let r2 : ApiResponse := ⟨Json.obj [("snapshot", unwrapFirst (jsGet r.data "snapshot"))], r.url⟩
           let out := returnFMP cacheable endpoint params r2
           (out.1, tr ++ out.2)) := by
  unfold fmpDispatch
  rw [h1, h2, h3, h4, h6, h7, h8, h9, if_neg h5]
  rfl

/-- C4: on the Secondary backend, when the `/financial-metrics/snapshot/`
rule or the `/prices/snapshot` rule fires, a raw array response of length
at least one yields `data.snapshot` equal to the array's first element (not
the array); a non-array raw response is passed through unchanged under the
`snapshot` key. -/
theorem snapshot_unwraps_first
    (env : Env) (endpoint : String) (params : Params) (cacheable : Bool)
    (hfd : keyPresent env.fdKey = false)
    (hfmp : keyPresent env.fmpKey = true)
    (ht : truthy (getParam params "ticker") = true)
    (hmiss : cacheable = true → env.cache endpoint params = none)
    (hrule : matchesMetricsSnapshotRule endpoint ∨ matchesPricesSnapshotRule endpoint) :
    ∀ j st sx,
      env.fetch (fmpUrl (jsStringO (getParam params "ticker")) ((env.fmpKey).getD "") params
        (if jsIncludes endpoint "/financial-metrics/snapshot/" then "/ratios-ttm" else "/quote")
        [] false) = .response true st sx (some j) →
      ((∀ x rest, j = Json.arr (x :: rest) →
          (callApi env endpoint params cacheable).1 =
            .ok ⟨Json.obj [("snapshot", x)],
              (fmpUrl (jsStringO (getParam params "ticker")) ((env.fmpKey).getD "") params
                (if jsIncludes endpoint "/financial-metrics/snapshot/" then "/ratios-ttm" else "/quote")
                [] false).render⟩) ∧
       ((∀ ys, j ≠ Json.arr ys) →
          (callApi env endpoint params cacheable).1 =
            .ok ⟨Json.obj [("snapshot", j)],
              (fmpUrl (jsStringO (getParam params "ticker")) ((env.fmpKey).getD "") params
                (if jsIncludes endpoint "/financial-metrics/snapshot/" then "/ratios-ttm" else "/quote")
                [] false).render⟩)) := by
  obtain ⟨hres, htr⟩ := callApi_fmp env endpoint params cacheable hfd hfmp ht hmiss
  rcases hrule with ⟨h1, h2, h3, h4, h5, h6⟩ | ⟨h1, h2, h3, h4, h5, h6, h7, h8, h9⟩
  · have hsub : (if jsIncludes endpoint "/financial-metrics/snapshot/" then "/ratios-ttm" else "/quote") = "/ratios-ttm" := by
      rw [h6]
      rfl
    rw [fmpDispatch_metricsSnapshot env endpoint params cacheable _ _ _ h1 h2 h3 h4 h5 h6] at hres
    intro j st sx hfetch
    rw [hsub] at hfetch ⊢
    constructor
    · intro x rest hj
      subst hj
      rw [hres, fetchFMP_success hfetch]
      simp [returnFMP, jsGet, unwrapFirst]
    · intro hnj
      rw [hres, fetchFMP_success hfetch]
      simp [returnFMP, jsGet, unwrapFirst_not_arr j hnj]
  · have hsub : (if jsIncludes endpoint "/financial-metrics/snapshot/" then "/ratios-ttm" else "/quote") = "/quote" := by
      rw [h6]
      rfl
    rw [fmpDispatch_pricesSnapshot env endpoint params cacheable _ _ _ h1 h2 h3 h4 h5 h6 h7 h8 h9] at hres
    intro j st sx hfetch
    rw [hsub] at hfetch ⊢
    constructor
    · intro x rest hj
      subst hj
      rw [hres, fetchFMP_success hfetch]
      simp [returnFMP, jsGet, unwrapFirst]
    · intro hnj
      rw [hres, fetchFMP_success hfetch]
      simp [returnFMP, jsGet, unwrapFirst_not_arr j hnj]

def envW4 : Env :=
  { fdKey := none, fmpKey := some "w4",
    cache := fun _ _ => none,
    fetch := fun u =>
      if u.path = "/ratios-ttm" then .response true 200 "OK" (some (Json.arr [Json.num 7, Json.num 8]))
      else .response true 200 "OK" (some (Json.obj [("price", Json.num 5)])),
    now := 0 }

/-- Witness for C4: a two-element `ratios-ttm` array yields its first
element under `snapshot`; a non-array `quote` body passes through. -/
theorem snapshot_unwraps_first_witness :
    keyPresent envW4.fdKey = false ∧ keyPresent envW4.fmpKey = true ∧
    (callApi envW4 "/financial-metrics/snapshot/" [("ticker", some (ParamValue.s "AAPL"))] false).1 =
      .ok ⟨Json.obj [("snapshot", Json.num 7)],
        (fmpUrl "AAPL" "w4" [("ticker", some (ParamValue.s "AAPL"))] "/ratios-ttm" [] false).render⟩ ∧
    (callApi envW4 "/prices/snapshot/" [("ticker", some (ParamValue.s "AAPL"))] false).1 =
      .ok ⟨Json.obj [("snapshot", Json.obj [("price", Json.num 5)])],
        (fmpUrl "AAPL" "w4" [("ticker", some (ParamValue.s "AAPL"))] "/quote" [] false).render⟩ :=
  ⟨rfl, rfl,
    (snapshot_unwraps_first envW4 "/financial-metrics/snapshot/"
        [("ticker", some (ParamValue.s "AAPL"))] false rfl rfl rfl (fun h => by cases h)
        (Or.inl ⟨rfl, rfl, rfl, rfl, by decide, rfl⟩) (Json.arr [Json.num 7, Json.num 8]) 200 "OK" rfl).1
      (Json.num 7) [Json.num 8] rfl,
    (snapshot_unwraps_first envW4 "/prices/snapshot/"
        [("ticker", some (ParamValue.s "AAPL"))] false rfl rfl rfl (fun h => by cases h)
        (Or.inr ⟨rfl, rfl, rfl, rfl, by decide, rfl, rfl, rfl, rfl⟩) (Json.obj [("price", Json.num 5)]) 200 "OK" rfl).2
      (fun ys h => Json.noConfusion h)⟩

/-- When the crypto guard fires (no earlier rule matched and the endpoint
contains `/crypto/`), the dispatch fails with the crypto message and no
sub-request. -/
theorem fmpDispatch_crypto (env : Env) (endpoint : String) (params : Params)
    (cacheable : Bool) (label tk fk : String)
    (h1 : jsIncludes endpoint "income-statements" = false)
    (h2 : jsIncludes endpoint "balance-sheets" = false)
    (h3 : jsIncludes endpoint "cash-flow-statements" = false)
    (h4 : jsIncludes endpoint "/segmented-revenues/" = false)
    (h5 : endpoint ≠ "/financials/")
    (h6 : jsIncludes endpoint "/financial-metrics/snapshot/" = false)
    (h7 : jsIncludes endpoint "/financial-metrics/" = false)
    (hc : jsIncludes endpoint "/crypto/" = true) :
    fmpDispatch env endpoint params cacheable label tk fk = (.error cryptoMsg, []) := by
  unfold fmpDispatch
  rw [h1, h2, h3, h4, h6, h7, hc, if_neg h5]
  rfl

def envC7 : Env :=
  { fdKey := none, fmpKey := some "c7",
    cache := fun _ _ => none,
    fetch := fun _ => .response true 200 "OK" (some (Json.arr [])),
    now := 0 }

/-- C7 counterexample: the crypto guard is only checked after the statement
rules, so an endpoint containing both `/crypto/` and `income-statements`
does not fail with `UnsupportedByBackend`: it is served by the
income-statement rule, with one network request. -/
theorem crypto_claim_counterexample :
    keyPresent envC7.fdKey = false ∧ keyPresent envC7.fmpKey = true ∧
    jsIncludes "/crypto/income-statements/" "/crypto/" = true ∧
    (callApi envC7 "/crypto/income-statements/" [("ticker", some (ParamValue.s "BTC"))] false).1 =
      .ok ⟨Json.obj [("income_statements", Json.arr [])],
        (fmpUrl "BTC" "c7" [("ticker", some (ParamValue.s "BTC"))] "/income-statement" [] false).render⟩ ∧
    netCalls (callApi envC7 "/crypto/income-statements/" [("ticker", some (ParamValue.s "BTC"))] false).2 =
      [fmpUrl "BTC" "c7" [("ticker", some (ParamValue.s "BTC"))] "/income-statement" [] false] :=
  ⟨rfl, rfl, rfl, rfl, rfl⟩

/-- C7 (amended): on the Secondary backend with a ticker present, an
endpoint that contains `/crypto/` and matches none of the earlier rules
(`income-statements`, `balance-sheets`, `cash-flow-statements`,
`/segmented-revenues/`, `/financial-metrics/snapshot/`,
`/financial-metrics/`; `/financials/` cannot co-occur with `/crypto/`)
fails with the crypto `UnsupportedByBackend` message, performs no network
request, and the message names the missing `FINANCIAL_DATASETS_API_KEY`. -/
theorem crypto_unsupported_no_network
    (env : Env) (endpoint : String) (params : Params) (cacheable : Bool)
    (hfd : keyPresent env.fdKey = false)
    (hfmp : keyPresent env.fmpKey = true)
    (ht : truthy (getParam params "ticker") = true)
    (hmiss : cacheable = true → env.cache endpoint params = none)
    (h1 : jsIncludes endpoint "income-statements" = false)
    (h2 : jsIncludes endpoint "balance-sheets" = false)
    (h3 : jsIncludes endpoint "cash-flow-statements" = false)
    (h4 : jsIncludes endpoint "/segmented-revenues/" = false)
    (h6 : jsIncludes endpoint "/financial-metrics/snapshot/" = false)
    (h7 : jsIncludes endpoint "/financial-metrics/" = false)
    (hc : jsIncludes endpoint "/crypto/" = true) :
    (callApi env endpoint params cacheable).1 = .error cryptoMsg ∧
    netCalls (callApi env endpoint params cacheable).2 = [] ∧
    jsIncludes cryptoMsg "FINANCIAL_DATASETS_API_KEY" = true := by
  have h5 : endpoint ≠ "/financials/" := by
    intro he
    rw [he] at hc
    exact absurd hc (by decide)
  obtain ⟨hres, htr⟩ := callApi_fmp env endpoint params cacheable hfd hfmp ht hmiss
  rw [fmpDispatch_crypto env endpoint params cacheable _ _ _ h1 h2 h3 h4 h5 h6 h7 hc] at hres htr
  refine ⟨hres, ?_, by decide⟩
  rw [htr]
  rfl

def envW7 : Env :=
  { fdKey := none, fmpKey := some "w7",
    cache := fun _ _ => none,
    fetch := fun _ => .response true 200 "OK" (some (Json.arr [])),
    now := 0 }

/-- Witness for the amended C7 at `/crypto/prices/` (which also contains
`/prices/`, confirming the crypto guard precedes the prices rules). -/
theorem crypto_unsupported_no_network_witness :
    keyPresent envW7.fdKey = false ∧ keyPresent envW7.fmpKey = true ∧
    jsIncludes "/crypto/prices/" "/prices/" = true ∧
    (callApi envW7 "/crypto/prices/" [("ticker", some (ParamValue.s "BTC"))] false).1 =
      .error cryptoMsg ∧
    netCalls (callApi envW7 "/crypto/prices/" [("ticker", some (ParamValue.s "BTC"))] false).2 = [] ∧
    jsIncludes cryptoMsg "FINANCIAL_DATASETS_API_KEY" = true :=
  ⟨rfl, rfl, rfl,
    (crypto_unsupported_no_network envW7 "/crypto/prices/" [("ticker", some (ParamValue.s "BTC"))]
      false rfl rfl rfl (fun h => by cases h) rfl rfl rfl rfl rfl rfl rfl).1,
    (crypto_unsupported_no_network envW7 "/crypto/prices/" [("ticker", some (ParamValue.s "BTC"))]
      false rfl rfl rfl (fun h => by cases h) rfl rfl rfl rfl rfl rfl rfl).2.1,
    (crypto_unsupported_no_network envW7 "/crypto/prices/" [("ticker", some (ParamValue.s "BTC"))]
      false rfl rfl rfl (fun h => by cases h) rfl rfl rfl rfl rfl rfl rfl).2.2⟩

theorem lookup_eq_none {β : Type} (k : String) (l : List (String × β))
    (h : ∀ p ∈ l, p.1 ≠ k) : List.lookup k l = none := by
  induction l with
  | nil => rfl
  | cons p t ih =>
      obtain ⟨k1, v⟩ := p
      have hne : k1 ≠ k := h (k1, v) (List.mem_cons_self _ _)
      have hb : (k == k1) = false := beq_eq_false_iff_ne.mpr (fun hh => hne hh.symm)
      simp only [List.lookup, hb]
      exact ih (fun q hq => h q (List.mem_cons_of_mem _ hq))

def envC8 : Env :=
  { fdKey := none, fmpKey := some "k8",
    cache := fun _ _ => none,
    fetch := fun _ => .response true 200 "OK" (some (Json.arr [])),
    now := 0 }

/-- C8 counterexample: `params.limit = 0` is present but falsy, so the
sub-request is issued with no `limit` query entry at all — the claim's
"forwarded verbatim when present" fails at a present zero limit. -/
theorem limit_forward_claim_counterexample :
    getParam [("ticker", some (ParamValue.s "AAPL")), ("limit", some (ParamValue.n 0))] "limit" =
      some (ParamValue.n 0) ∧
    netCalls (callApi envC8 "/financial-metrics/"
      [("ticker", some (ParamValue.s "AAPL")), ("limit", some (ParamValue.n 0))] false).2 =
      [fmpUrl "AAPL" "k8" [("ticker", some (ParamValue.s "AAPL")), ("limit", some (ParamValue.n 0))]
        "/ratios" [] false] ∧
    (fmpUrl "AAPL" "k8" [("ticker", some (ParamValue.s "AAPL")), ("limit", some (ParamValue.n 0))]
      "/ratios" [] false).query.lookup "limit" = none :=
  ⟨rfl, rfl, rfl⟩

/-- C8 (amended): in every FMP sub-request query, `period: "quarterly"`
becomes the single entry `period=quarter`; any other or absent period value
produces no `period` entry; a present and truthy `limit` is forwarded as
`String(limit)`; a falsy `limit` (absent, `0`, or `""`) produces no `limit`
entry. -/
theorem fmp_subrequest_period_limit
    (ticker fmpKey : String) (params : Params) (extra : List (String × String)) (skipSymbol : Bool)
    (hextra : ∀ p ∈ extra, p.1 ≠ "period" ∧ p.1 ≠ "limit") :
    ((getParam params "period" = some (ParamValue.s "quarterly") →
        (fmpQuery ticker fmpKey params extra skipSymbol).lookup "period" = some "quarter") ∧
     (getParam params "period" ≠ some (ParamValue.s "quarterly") →
        (fmpQuery ticker fmpKey params extra skipSymbol).lookup "period" = none)) ∧
    ((∀ v, getParam params "limit" = some v → truthyV v = true →
        (fmpQuery ticker fmpKey params extra skipSymbol).lookup "limit" = some (jsString v)) ∧
     (truthy (getParam params "limit") = false →
        (fmpQuery ticker fmpKey params extra skipSymbol).lookup "limit" = none)) := by
  have lePeriod : List.lookup "period" extra = none :=
    lookup_eq_none "period" extra (fun p hp => (hextra p hp).1)
  have leLimit : List.lookup "limit" extra = none :=
    lookup_eq_none "limit" extra (fun p hp => (hextra p hp).2)
  refine ⟨⟨?_, ?_⟩, ?_, ?_⟩
  · intro hq
    unfold fmpQuery limitQuery periodQuery
    split_ifs <;> simp_all [List.lookup]
  · intro hq
    unfold fmpQuery limitQuery periodQuery
    split_ifs <;> simp_all [List.lookup] <;> assumption
  · intro v hv htv
    have hl : truthy (getParam params "limit") = true := by rw [hv]; exact htv
    have hjs : jsStringO (getParam params "limit") = jsString v := by rw [hv]; rfl
    unfold fmpQuery limitQuery periodQuery
    split_ifs <;> simp_all [List.lookup]
  · intro hfl
    unfold fmpQuery limitQuery periodQuery
    split_ifs <;> simp_all [List.lookup] <;> assumption

/-- Witness for the amended C8: quarterly is translated, a truthy numeric
limit is forwarded stringified, `annual` yields no period entry. -/
theorem fmp_subrequest_period_limit_witness :
    (fmpQuery "AAPL" "w8"
      [("ticker", some (ParamValue.s "AAPL")), ("period", some (ParamValue.s "quarterly")),
       ("limit", some (ParamValue.n 5))] [] false).lookup "period" = some "quarter" ∧
    (fmpQuery "AAPL" "w8"
      [("ticker", some (ParamValue.s "AAPL")), ("period", some (ParamValue.s "quarterly")),
       ("limit", some (ParamValue.n 5))] [] false).lookup "limit" = some "5" ∧
    (fmpQuery "AAPL" "w8"
      [("ticker", some (ParamValue.s "AAPL")), ("period", some (ParamValue.s "annual"))]
      [] false).lookup "period" = none :=
  ⟨(fmp_subrequest_period_limit "AAPL" "w8"
      [("ticker", some (ParamValue.s "AAPL")), ("period", some (ParamValue.s "quarterly")),
       ("limit", some (ParamValue.n 5))] [] false
      (fun p hp => absurd hp (List.not_mem_nil p))).1.1 rfl,
   (fmp_subrequest_period_limit "AAPL" "w8"
      [("ticker", some (ParamValue.s "AAPL")), ("period", some (ParamValue.s "quarterly")),
       ("limit", some (ParamValue.n 5))] [] false
      (fun p hp => absurd hp (List.not_mem_nil p))).2.1 (ParamValue.n 5) rfl rfl,
   (fmp_subrequest_period_limit "AAPL" "w8"
      [("ticker", some (ParamValue.s "AAPL")), ("period", some (ParamValue.s "annual"))]
      [] false
      (fun p hp => absurd hp (List.not_mem_nil p))).1.2 (by decide)⟩
